import Mathlib

/-!
Verification development for the DreamGen bot (`bot.py`): a shallow
embedding of its request-admission and generation pipeline, with theorems
about the rate limiter, content filter, generation client, concurrency
gate, usage recorder and orchestrator.

Modelling conventions: Python floats (`time.time()`, `cfg_scale`) become
`ℚ`; Python `int(x)` truncation becomes `pyIntTrunc`; strings stay
`String` with `Char.toLower`/`Char.toUpper` for `.lower()`/`.upper()`;
the external `base64.b64decode` and the parsed JSON response are
parameters of the client model; exceptions become `Except String`.
-/

namespace DreamGen

/-- Python truthiness of an optional string: `None` and `""` are falsy. -/
def pyTruthyStr : Option String → Bool
  | none => false
  | some s => !s.isEmpty

/-- `s.lower()` on a Lean string. -/
def lowerStr (s : String) : String := ⟨s.data.map Char.toLower⟩

/-- `s.upper()` on a Lean string. -/
def upperStr (s : String) : String := ⟨s.data.map Char.toUpper⟩

/-- Does `hay` start with `needle`? -/
def matchesAt : List Char → List Char → Bool
  | [], _ => true
  | _ :: _, [] => false
  | c :: cs, d :: ds => c = d && matchesAt cs ds

/-- Substring occurrence on character lists, as in Python's `in`. -/
def listContains (needle : List Char) : List Char → Bool
  | [] => needle.isEmpty
  | c :: rest => matchesAt needle (c :: rest) || listContains needle rest

/-- Python's `needle in hay` on strings. -/
def strIn (needle hay : String) : Bool := listContains needle.data hay.data

/-- `bot.py` line 84: `prompt_blocked` lowercases the prompt and checks
whether any banned keyword occurs in it verbatim. -/
def prompt_blocked (banned : List String) (prompt : String) : Bool :=
  banned.any fun w => strIn w (lowerStr prompt)

/-- Spec-side notion for comparison: `term` occurs in `text` as a
case-insensitive substring (both sides lowercased). -/
def ciOccurs (term text : String) : Bool :=
  strIn (lowerStr term) (lowerStr text)

/-- Python `int(q)` on a rational: truncation toward zero. -/
def pyIntTrunc (q : ℚ) : Int := if 0 ≤ q then ⌊q⌋ else -⌊-q⌋

/-- Equality of `Except` results is decidable componentwise. -/
instance {ε α : Type} [DecidableEq ε] [DecidableEq α] :
    DecidableEq (Except ε α) := fun x y =>
  match x, y with
  | .ok a, .ok b =>
    match decEq a b with
    | isTrue h => isTrue (by rw [h])
    | isFalse h => isFalse (fun hh => h (by cases hh; rfl))
  | .ok _, .error _ => isFalse (fun hh => by cases hh)
  | .error _, .ok _ => isFalse (fun hh => by cases hh)
  | .error a, .error b =>
    match decEq a b with
    | isTrue h => isTrue (by rw [h])
    | isFalse h => isFalse (fun hh => h (by cases hh; rfl))

/-! ## Generation client: request payload (`bot.py` lines 113-126) -/

/-- The outbound JSON body built by `call_stability_generate`. -/
structure Payload where
  text_prompts : List (String × ℚ)
  cfg_scale : ℚ
  height : Int
  width : Int
  samples : Int
  steps : Int
  seed : Option Int
  deriving DecidableEq

/-- `if seed: payload["seed"] = int(seed)` — the seed key is added only
when `seed` is truthy, so `None` and `0` both leave it absent. -/
def payloadSeed : Option Int → Option Int
  | none => none
  | some s => if s = 0 then none else some s

/-- Request-body construction of `call_stability_generate`. -/
def buildPayload (prompt : String) (negative_prompt : Option String)
    (steps : Int) (cfg_scale : ℚ) (width height samples : Int)
    (seed : Option Int) : Payload :=
  { text_prompts :=
      (prompt, (1 : ℚ)) ::
        (if pyTruthyStr negative_prompt then
          [(negative_prompt.getD "", (-1 : ℚ))]
        else [])
    cfg_scale := cfg_scale
    height := height
    width := width
    samples := samples
    steps := steps
    seed := payloadSeed seed }

/-! ## Generation client: response normalization (`bot.py` lines 139-156) -/

/-- One artifact entry of the parsed JSON response; each known field name
is present or absent independently. -/
structure ArtEntry where
  base64 : Option String := none
  b64_json : Option String := none
  b64 : Option String := none
  finishReason : Option String := none
  finish_reason : Option String := none
  seed : Option Int := none
  deriving DecidableEq

/-- The artifacts array of the response: either a flat list of entries or
a list nested one extra array level. -/
inductive ArtsVal
  | flat (l : List ArtEntry)
  | nested (l : List (List ArtEntry))
  deriving DecidableEq

/-- The parts of the parsed response body the client reads. -/
structure RespData where
  artifacts : Option ArtsVal := none
  result : Option ArtsVal := none
  deriving DecidableEq

/-- Python truthiness of the artifacts value: absent and empty are falsy. -/
def artsTruthy : Option ArtsVal → Bool
  | none => false
  | some (.flat l) => !l.isEmpty
  | some (.nested l) => !l.isEmpty

/-- `artifacts = data.get("artifacts") or data.get("result") or []`,
followed by `if artifacts and isinstance(artifacts[0], list):
artifacts = artifacts[0]`. -/
def selectArtifacts (d : RespData) : List ArtEntry :=
  let v := if artsTruthy d.artifacts then d.artifacts
    else if artsTruthy d.result then d.result
    else none
  match v with
  | none => []
  | some (.flat l) => l
  | some (.nested []) => []
  | some (.nested (h :: _)) => h

/-- `art.get("base64") or art.get("b64_json") or art.get("b64")`,
collapsed with the later `if not b64: continue` truthiness test: a falsy
chain result behaves exactly like an absent one. -/
def getB64 (e : ArtEntry) : Option String :=
  if pyTruthyStr e.base64 then e.base64
  else if pyTruthyStr e.b64_json then e.b64_json
  else if pyTruthyStr e.b64 then e.b64
  else none

/-- `art.get("finishReason") or art.get("finish_reason") or
art.get("finishReason")` — the source repeats the first field name. -/
def getFinish (e : ArtEntry) : Option String :=
  if pyTruthyStr e.finishReason then e.finishReason
  else if pyTruthyStr e.finish_reason then e.finish_reason
  else if pyTruthyStr e.finishReason then e.finishReason
  else none

/-- One normalized artifact returned by the client
(`{'bytes': ..., 'seed': ..., 'finish_reason': ...}`). -/
structure Artifact where
  bytes : List Nat
  seed : Option Int := none
  finish_reason : Option String := none
  deriving DecidableEq

/-- Message of the exception raised on a non-200 status
(`bot.py` line 134). -/
def upstreamMsg (status : Nat) (text : String) : String :=
  "Stability API error " ++ toString status ++ ": " ++ text

/-- Message of the exception raised on a base64 decode failure
(`bot.py` line 154). -/
def decodeMsg (e : String) : String :=
  "Failed to decode base64 image: " ++ e

/-- The per-entry loop of `call_stability_generate` (lines 144-156):
entries without image data are skipped, a decode failure raises, kept
entries are appended in order. `dec` stands for `base64.b64decode`. -/
def processArtifacts (dec : String → Except String (List Nat)) :
    List ArtEntry → Except String (List Artifact)
  | [] => .ok []
  | e :: rest =>
    match getB64 e with
    | none => processArtifacts dec rest
    | some s =>
      match dec s with
      | .error msg => .error (decodeMsg msg)
      | .ok bts =>
        match processArtifacts dec rest with
        | .error m => .error m
        | .ok tail =>
          .ok ({ bytes := bts, seed := e.seed, finish_reason := getFinish e } :: tail)

/-- What a kept entry contributes to the output list, if anything. -/
def keptArtifact (dec : String → Except String (List Nat))
    (e : ArtEntry) : Option Artifact :=
  match getB64 e with
  | none => none
  | some s =>
    match dec s with
    | .error _ => none
    | .ok bts => some { bytes := bts, seed := e.seed, finish_reason := getFinish e }

/-- The pure result of `call_stability_generate` given the HTTP status,
raw body text and parsed body; `dec` stands for `base64.b64decode`. -/
def call_stability_generate (dec : String → Except String (List Nat))
    (status : Nat) (text : String) (data : RespData) :
    Except String (List Artifact) :=
  if status ≠ 200 then .error (upstreamMsg status text)
  else processArtifacts dec (selectArtifacts data)

/-! ## Orchestrator: `slash_resim` (`bot.py` lines 188-265) -/

/-- The five normalized numeric parameters (`bot.py` lines 215-221). -/
structure NormParams where
  steps : Int
  cfg_scale : ℚ
  width : Int
  height : Int
  samples : Int
  deriving DecidableEq

/-- Is this width/height one of the accepted dimensions? -/
def allowedDim (w : Int) : Bool :=
  w = 256 || w = 512 || w = 768 || w = 1024

/-- Parameter normalization: clamp `steps` to `[10, 80]`, `cfg_scale` to
`[1, 30]`, `samples` to `[1, 4]`; width/height outside the accepted set
fall back to 512. -/
def normalizeParams (p : NormParams) : NormParams :=
  { steps := max 10 (min 80 p.steps)
    cfg_scale := max 1 (min 30 p.cfg_scale)
    width := if allowedDim p.width then p.width else 512
    height := if allowedDim p.height then p.height else 512
    samples := max 1 (min 4 p.samples) }

/-- The arguments the orchestrator passes to `call_stability_generate`. -/
structure GenReq where
  prompt : String
  negative_prompt : Option String
  params : NormParams
  seed : Option Int
  model : String
  deriving DecidableEq

/-- One row of the `usages` table as written by `log_usage`. -/
structure UsageRecord where
  userId : Nat
  prompt : String
  negative_prompt : Option String
  model : String
  seed : Option Int
  width : Int
  height : Int
  steps : Int
  samples : Int
  cfg_scale : ℚ
  deriving DecidableEq

/-- The user-visible messages `slash_resim` can send. -/
inductive Msg
  | cooldownWait (remaining : Int)
  | blocked
  | apiError (e : String)
  | noImages
  | filteredNotice (finish : String)
  | image (idx : Nat) (embedSeed : Option Int)
  | nothingDelivered
  deriving DecidableEq

/-- The command inputs as received from the dispatcher. -/
structure SlashInput where
  uid : Nat
  now : ℚ
  prompt : String
  negative_prompt : Option String := none
  steps : Int := 30
  cfg_scale : ℚ := 7
  width : Int := 512
  height : Int := 512
  samples : Int := 1
  seed : Option Int := none
  model : Option String := none

/-- Everything observable about one `slash_resim` run: the messages sent,
the cooldown map afterwards, the rows written to the usage store, what was
reported to any log/metric channel, and the arguments of the generation
call if one was made. -/
structure SlashOutput where
  messages : List Msg
  newLast : Nat → ℚ
  recorded : List UsageRecord
  observed : List String
  dispatched : Option GenReq

/-- The finish-reason string used by the delivery loop:
`(r.get("finish_reason") or "").upper() if r.get("finish_reason") else
"UNKNOWN"`. -/
def finishOf (r : Artifact) : String :=
  if pyTruthyStr r.finish_reason then upperStr (r.finish_reason.getD "")
  else "UNKNOWN"

/-- `"FILTER" in finish or "CONTENT" in finish` (line 244). -/
def isFilteredArtifact (r : Artifact) : Bool :=
  strIn "FILTER" (finishOf r) || strIn "CONTENT" (finishOf r)

/-- The per-artifact delivery loop (lines 242-257): each filtered artifact
yields a notice and is skipped; every other artifact is delivered as an
image file (index starting at 1) whose embed shows the artifact's own
seed; the second component is `sent_files` (as indices). -/
def deliveryLoop : List Artifact → Nat → List Msg × List Nat
  | [], _ => ([], [])
  | r :: rest, idx =>
    let tail := deliveryLoop rest (idx + 1)
    if isFilteredArtifact r then
      (Msg.filteredNotice (finishOf r) :: tail.1, tail.2)
    else
      (Msg.image idx r.seed :: tail.1, idx :: tail.2)

/-- The `slash_resim` handler. `cooldown` is `USER_COOLDOWN`, `banned`
the keyword list, `defaultModel` the `DEFAULT_MODEL` value; `genResult`
is the outcome of the awaited `call_stability_generate` call (`.error`
for any raised exception, stringified); `recorderOk` tells whether the
sqlite insert of `log_usage` succeeds; `lastMap` is the `last_request`
map (absent users read 0, matching `.get(uid, 0)`). -/
def slash_resim (cooldown : Int) (banned : List String)
    (defaultModel : String) (genResult : Except String (List Artifact))
    (recorderOk : Bool) (lastMap : Nat → ℚ) (inp : SlashInput) :
    SlashOutput :=
  let last := lastMap inp.uid
  if inp.now - last < (cooldown : ℚ) then
    { messages := [Msg.cooldownWait (pyIntTrunc ((cooldown : ℚ) - (inp.now - last)))]
      newLast := lastMap
      recorded := []
      observed := []
      dispatched := none }
  else
    let lastMap' := fun u => if u = inp.uid then inp.now else lastMap u
    let model := inp.model.getD defaultModel
    if prompt_blocked banned inp.prompt
        || (pyTruthyStr inp.negative_prompt
            && prompt_blocked banned (inp.negative_prompt.getD "")) then
      { messages := [Msg.blocked]
        newLast := lastMap'
        recorded := []
        observed := []
        dispatched := none }
    else
      let p := normalizeParams
        { steps := inp.steps, cfg_scale := inp.cfg_scale
          width := inp.width, height := inp.height, samples := inp.samples }
      let req : GenReq :=
        { prompt := inp.prompt, negative_prompt := inp.negative_prompt
          params := p, seed := inp.seed, model := model }
      match genResult with
      | .error e =>
        { messages := [Msg.apiError e]
          newLast := lastMap'
          recorded := []
          observed := []
          dispatched := some req }
      | .ok results =>
        if results.isEmpty then
          { messages := [Msg.noImages]
            newLast := lastMap'
            recorded := []
            observed := []
            dispatched := some req }
        else
          let loop := deliveryLoop results 1
          { messages := loop.1 ++ (if loop.2.isEmpty then [Msg.nothingDelivered] else [])
            newLast := lastMap'
            recorded :=
              if recorderOk then
                [{ userId := inp.uid, prompt := inp.prompt
                   negative_prompt := inp.negative_prompt, model := model
                   seed := inp.seed, width := p.width, height := p.height
                   steps := p.steps, samples := p.samples
                   cfg_scale := p.cfg_scale }]
              else []
            observed := []
            dispatched := some req }

/-! ## Concurrency gate (`bot.py` lines 45, 128-137) -/

/-- Gate-relevant events of one generation task: acquiring the semaphore,
the outbound HTTP call (tagged with whether it succeeds), releasing. -/
inductive GEvent
  | acq
  | call (ok : Bool)
  | rel
  deriving DecidableEq

/-- The `try` body: the HTTP call either yields parsed data or raises. -/
def httpBody (outcome : Except String RespData) :
    List GEvent × Except String RespData :=
  match outcome with
  | .ok d => ([GEvent.call true], .ok d)
  | .error e => ([GEvent.call false], .error e)

/-- `try ... finally ...`: the finalizer events run on every exit path,
whether the body succeeded or raised. -/
def tryFinally {α : Type} (body : List GEvent × Except String α)
    (fin : List GEvent) : List GEvent × Except String α :=
  (body.1 ++ fin, body.2)

/-- The event trace of `call_stability_generate` around the semaphore:
`await generation_semaphore.acquire()`, then the HTTP call inside
`try ... finally: generation_semaphore.release()`. -/
def callStabilityTrace (outcome : Except String RespData) :
    List GEvent × Except String RespData :=
  let t := tryFinally (httpBody outcome) [GEvent.rel]
  (GEvent.acq :: t.1, t.2)

/-- One task of the gate system: its remaining trace and whether it
currently holds a permit. -/
structure GateTask where
  trace : List GEvent
  holding : Bool
  deriving DecidableEq

/-- Global state: available permits plus all tasks. -/
structure GateSt where
  permits : Nat
  tasks : List GateTask
  deriving DecidableEq

/-- How one task advances, together with the permit count: acquiring
consumes a permit (and blocks — no step exists — when none is left),
releasing returns one, the HTTP call leaves the count alone. -/
inductive TaskStep : Nat → GateTask → Nat → GateTask → Prop
  | acq (p : Nat) (r : List GEvent) (b : Bool) :
      TaskStep (p + 1) ⟨GEvent.acq :: r, b⟩ p ⟨r, true⟩
  | rel (p : Nat) (r : List GEvent) (b : Bool) :
      TaskStep p ⟨GEvent.rel :: r, b⟩ (p + 1) ⟨r, false⟩
  | call (p : Nat) (ok : Bool) (r : List GEvent) (b : Bool) :
      TaskStep p ⟨GEvent.call ok :: r, b⟩ p ⟨r, b⟩

/-- Interleaving semantics: some task takes a step. -/
inductive GateStep : GateSt → GateSt → Prop
  | mk (pre post : List GateTask) (p p' : Nat) (t t' : GateTask) :
      TaskStep p t p' t' →
      GateStep ⟨p, pre ++ t :: post⟩ ⟨p', pre ++ t' :: post⟩

/-- Reachability under interleaved task steps. -/
def gateReach : GateSt → GateSt → Prop := Relation.ReflTransGen GateStep

/-- A trace is permit-scoped from holding-state `b`: it acquires only
when not holding, releases only when holding, and ends not holding. -/
inductive Scoped : List GEvent → Bool → Prop
  | nil : Scoped [] false
  | acq (r : List GEvent) : Scoped r true → Scoped (GEvent.acq :: r) false
  | rel (r : List GEvent) : Scoped r false → Scoped (GEvent.rel :: r) true
  | call (ok : Bool) (r : List GEvent) (b : Bool) :
      Scoped r b → Scoped (GEvent.call ok :: r) b

/-- Number of tasks currently holding a permit, i.e. with a generation
call in flight. -/
def inFlight (s : GateSt) : Nat := (s.tasks.filter (·.holding)).length

/-- Initial state: all permits free, every task at the start of its
trace, none holding. -/
def initGate (maxConc : Nat) (traces : List (List GEvent)) : GateSt :=
  ⟨maxConc, traces.map fun tr => ⟨tr, false⟩⟩

/-! ## Helper lemmas -/

theorem pyIntTrunc_eq_num (q : ℚ) (z : Int) (h0 : 0 ≤ q) (h1 : (z : ℚ) ≤ q)
    (h2 : q < z + 1) : pyIntTrunc q = z := by
  rw [pyIntTrunc, if_pos h0]
  exact Int.floor_eq_iff.mpr ⟨h1, by exact_mod_cast h2⟩

theorem pyIntTrunc_nonneg (q : ℚ) (h : 0 ≤ q) : 0 ≤ pyIntTrunc q := by
  rw [pyIntTrunc, if_pos h]
  exact Int.floor_nonneg.mpr h

/-- The content-gate condition of `slash_resim` (`bot.py` line 209). -/
def contentBlockedCond (banned : List String) (inp : SlashInput) : Bool :=
  prompt_blocked banned inp.prompt
    || (pyTruthyStr inp.negative_prompt
        && prompt_blocked banned (inp.negative_prompt.getD ""))

theorem slash_resim_cooldown_case (cooldown : Int) (banned : List String)
    (dm : String) (g : Except String (List Artifact)) (rOk : Bool)
    (lastMap : Nat → ℚ) (inp : SlashInput)
    (h1 : inp.now - lastMap inp.uid < (cooldown : ℚ)) :
    slash_resim cooldown banned dm g rOk lastMap inp =
      { messages := [Msg.cooldownWait
          (pyIntTrunc ((cooldown : ℚ) - (inp.now - lastMap inp.uid)))]
        newLast := lastMap, recorded := [], observed := [],
        dispatched := none } := by
  unfold slash_resim
  rw [if_pos h1]

theorem slash_resim_blocked_case (cooldown : Int) (banned : List String)
    (dm : String) (g : Except String (List Artifact)) (rOk : Bool)
    (lastMap : Nat → ℚ) (inp : SlashInput)
    (h1 : ¬(inp.now - lastMap inp.uid < (cooldown : ℚ)))
    (h2 : contentBlockedCond banned inp = true) :
    slash_resim cooldown banned dm g rOk lastMap inp =
      { messages := [Msg.blocked]
        newLast := fun u => if u = inp.uid then inp.now else lastMap u
        recorded := [], observed := [], dispatched := none } := by
  unfold slash_resim contentBlockedCond at *
  rw [if_neg h1, if_pos h2]

/-- The generation request assembled on the non-rejected path. -/
def assembledReq (dm : String) (inp : SlashInput) : GenReq :=
  { prompt := inp.prompt, negative_prompt := inp.negative_prompt
    params := normalizeParams
      { steps := inp.steps, cfg_scale := inp.cfg_scale
        width := inp.width, height := inp.height, samples := inp.samples }
    seed := inp.seed, model := inp.model.getD dm }

theorem slash_resim_error_case (cooldown : Int) (banned : List String)
    (dm : String) (e : String) (rOk : Bool) (lastMap : Nat → ℚ)
    (inp : SlashInput)
    (h1 : ¬(inp.now - lastMap inp.uid < (cooldown : ℚ)))
    (h2 : contentBlockedCond banned inp = false) :
    slash_resim cooldown banned dm (.error e) rOk lastMap inp =
      { messages := [Msg.apiError e]
        newLast := fun u => if u = inp.uid then inp.now else lastMap u
        recorded := [], observed := []
        dispatched := some (assembledReq dm inp) } := by
  unfold slash_resim contentBlockedCond at *
  rw [if_neg h1, if_neg (by simp [h2])]
  rfl

theorem slash_resim_empty_case (cooldown : Int) (banned : List String)
    (dm : String) (rOk : Bool) (lastMap : Nat → ℚ) (inp : SlashInput)
    (h1 : ¬(inp.now - lastMap inp.uid < (cooldown : ℚ)))
    (h2 : contentBlockedCond banned inp = false) :
    slash_resim cooldown banned dm (.ok []) rOk lastMap inp =
      { messages := [Msg.noImages]
        newLast := fun u => if u = inp.uid then inp.now else lastMap u
        recorded := [], observed := []
        dispatched := some (assembledReq dm inp) } := by
  unfold slash_resim contentBlockedCond at *
  rw [if_neg h1, if_neg (by simp [h2])]
  rfl

/-- The usage row written on the delivery path. -/
def assembledRecord (dm : String) (inp : SlashInput) : UsageRecord :=
  let p := normalizeParams
    { steps := inp.steps, cfg_scale := inp.cfg_scale
      width := inp.width, height := inp.height, samples := inp.samples }
  { userId := inp.uid, prompt := inp.prompt
    negative_prompt := inp.negative_prompt, model := inp.model.getD dm
    seed := inp.seed, width := p.width, height := p.height
    steps := p.steps, samples := p.samples, cfg_scale := p.cfg_scale }

theorem slash_resim_ok_case (cooldown : Int) (banned : List String)
    (dm : String) (r : Artifact) (rest : List Artifact) (rOk : Bool)
    (lastMap : Nat → ℚ) (inp : SlashInput)
    (h1 : ¬(inp.now - lastMap inp.uid < (cooldown : ℚ)))
    (h2 : contentBlockedCond banned inp = false) :
    slash_resim cooldown banned dm (.ok (r :: rest)) rOk lastMap inp =
      { messages := (deliveryLoop (r :: rest) 1).1 ++
          (if (deliveryLoop (r :: rest) 1).2.isEmpty then
            [Msg.nothingDelivered] else [])
        newLast := fun u => if u = inp.uid then inp.now else lastMap u
        recorded := if rOk then [assembledRecord dm inp] else []
        observed := []
        dispatched := some (assembledReq dm inp) } := by
  unfold slash_resim contentBlockedCond at *
  rw [if_neg h1, if_neg (by simp [h2])]
  rfl

theorem deliveryLoop_no_cooldown_msg (l : List Artifact) (i : Nat)
    (rem : Int) : Msg.cooldownWait rem ∉ (deliveryLoop l i).1 := by
  induction l generalizing i with
  | nil => simp [deliveryLoop]
  | cons r rest ih =>
    by_cases hf : isFilteredArtifact r = true
    · simp [deliveryLoop, hf]
      exact ih (i + 1)
    · simp [deliveryLoop, hf]
      exact ih (i + 1)

theorem clamp_idem {α : Type} [LinearOrder α] (a b x : α) (h : a ≤ b) :
    max a (min b (max a (min b x))) = max a (min b x) := by
  have h1 : max a (min b x) ≤ b := max_le h (min_le_left _ _)
  rw [min_eq_right h1, ← max_assoc, max_self]

theorem allowedDim_coerced (w : Int) :
    allowedDim (if allowedDim w then w else 512) = true := by
  by_cases hw : allowedDim w = true
  · simp [hw]
  · simp [hw]
    decide

/-! ## Claim C1 -/

/-- Claim C1 (corrected): on the rejection path (`now - last <
cooldown`) the user is told a remaining wait of `int(cooldown -
elapsed)` — truncation toward zero, not a ceiling — which is
nonnegative but can be zero, and the stored timestamp is not updated;
once the window has elapsed the request passes the rate limiter, `now`
is recorded as the user's new last-request time, and no cooldown
message is sent. -/
theorem cooldown_wait_truncated (cooldown : Int) (banned : List String)
    (dm : String) (g : Except String (List Artifact)) (rOk : Bool)
    (lastMap : Nat → ℚ) (inp : SlashInput) :
    (inp.now - lastMap inp.uid < (cooldown : ℚ) →
      (slash_resim cooldown banned dm g rOk lastMap inp).messages
        = [Msg.cooldownWait
            (pyIntTrunc ((cooldown : ℚ) - (inp.now - lastMap inp.uid)))] ∧
      (slash_resim cooldown banned dm g rOk lastMap inp).newLast = lastMap ∧
      0 ≤ pyIntTrunc ((cooldown : ℚ) - (inp.now - lastMap inp.uid))) ∧
    (¬(inp.now - lastMap inp.uid < (cooldown : ℚ)) →
      (slash_resim cooldown banned dm g rOk lastMap inp).newLast inp.uid
        = inp.now ∧
      ∀ rem, Msg.cooldownWait rem
        ∉ (slash_resim cooldown banned dm g rOk lastMap inp).messages) := by
  constructor
  · intro h1
    rw [slash_resim_cooldown_case cooldown banned dm g rOk lastMap inp h1]
    refine ⟨rfl, rfl, pyIntTrunc_nonneg _ ?_⟩
    have := sub_pos.mpr h1
    linarith
  · intro h1
    cases hb : contentBlockedCond banned inp with
    | true =>
      rw [slash_resim_blocked_case cooldown banned dm g rOk lastMap inp h1 hb]
      exact ⟨by simp, by intro rem; simp⟩
    | false =>
      match g with
      | .error e =>
        rw [slash_resim_error_case cooldown banned dm e rOk lastMap inp h1 hb]
        exact ⟨by simp, by intro rem; simp⟩
      | .ok [] =>
        rw [slash_resim_empty_case cooldown banned dm rOk lastMap inp h1 hb]
        exact ⟨by simp, by intro rem; simp⟩
      | .ok (r :: rest) =>
        rw [slash_resim_ok_case cooldown banned dm r rest rOk lastMap inp h1 hb]
        refine ⟨by simp, ?_⟩
        intro rem
        simp only [List.mem_append]
        rintro (hmem | hmem)
        · exact deliveryLoop_no_cooldown_msg (r :: rest) 1 rem hmem
        · revert hmem
          split
          · simp
          · simp

/-- Witness for C1: cooldown 10, last request at 0, new request at 3 —
the request is rejected, the stored timestamp stays, and the reported
wait is `int(10 - 3) = 7`. -/
theorem cooldown_wait_truncated_witness :
    ((3 : ℚ) - (fun _ : Nat => (0 : ℚ)) 1 < ((10 : Int) : ℚ)) ∧
    (slash_resim 10 [] "m" (.ok []) true (fun _ => 0)
        { uid := 1, now := 3, prompt := "p" }).messages
      = [Msg.cooldownWait 7] ∧
    (slash_resim 10 [] "m" (.ok []) true (fun _ => 0)
        { uid := 1, now := 3, prompt := "p" }).newLast = fun _ => 0 := by
  have h1 : ((3 : ℚ) - (fun _ : Nat => (0 : ℚ)) 1 < ((10 : Int) : ℚ)) := by
    norm_num
  have base := (cooldown_wait_truncated 10 [] "m" (.ok []) true (fun _ => 0)
    { uid := 1, now := 3, prompt := "p" }).1 h1
  refine ⟨h1, ?_, base.2.1⟩
  rw [base.1]
  have : pyIntTrunc (((10 : Int) : ℚ) - ((3 : ℚ) - (fun _ : Nat => (0 : ℚ)) 1))
      = 7 := by
    apply pyIntTrunc_eq_num <;> norm_num
  rw [this]

/-- Counterexample for C1 as stated: with cooldown 10 and elapsed 19/2,
the code reports a remaining wait of `int(1/2) = 0`, while the claim
says the user is told `ceil(1/2) = 1`, a strictly positive number. -/
theorem cooldown_ceiling_counterexample :
    (slash_resim 10 [] "m" (.ok []) true (fun _ => 0)
        { uid := 1, now := 19/2, prompt := "p" }).messages
      = [Msg.cooldownWait 0] ∧
    (⌈(10 : ℚ) - 19/2⌉ : ℤ) = 1 ∧ ¬((0 : ℤ) < 0) := by
  refine ⟨?_, ?_, by decide⟩
  · rw [slash_resim_cooldown_case 10 [] "m" (.ok []) true (fun _ => 0)
      { uid := 1, now := 19/2, prompt := "p" } (by norm_num)]
    have : pyIntTrunc (((10 : Int) : ℚ) - ((19/2 : ℚ) - (fun _ : Nat => (0 : ℚ)) 1))
        = 0 := by
      apply pyIntTrunc_eq_num <;> norm_num
    rw [this]
  · have h : (10 : ℚ) - 19/2 = 1/2 := by norm_num
    rw [h, Int.ceil_eq_iff] <;> norm_num

/-! ## Claim C10 -/

/-- Claim C10 (confirmed): `if seed:` — a requested seed of 0 is falsy,
so the outbound payload omits the seed key exactly as when no seed was
supplied; only a non-zero seed puts the key in the payload. -/
theorem seed_zero_omitted (prompt : String) (np : Option String)
    (steps : Int) (cfg : ℚ) (width height samples : Int) :
    buildPayload prompt np steps cfg width height samples (some 0)
      = buildPayload prompt np steps cfg width height samples none ∧
    (buildPayload prompt np steps cfg width height samples none).seed
      = none ∧
    ∀ s : Int, s ≠ 0 →
      (buildPayload prompt np steps cfg width height samples (some s)).seed
        = some s := by
  refine ⟨by simp [buildPayload, payloadSeed], rfl, ?_⟩
  intro s hs
  simp [buildPayload, payloadSeed, hs]

/-- Witness for C10: the payload for seed 7 carries the key. -/
theorem seed_zero_omitted_witness :
    (7 : Int) ≠ 0 ∧
    (buildPayload "p" none 30 7 512 512 1 (some 7)).seed = some 7 :=
  ⟨by decide, (seed_zero_omitted "p" none 30 7 512 512 1).2.2 7 (by decide)⟩

/-! ## Claim C8 -/

/-- Claim C8 (confirmed): parameter normalization — clamping `steps` to
`[10, 80]`, `cfg_scale` to `[1, 30]`, `samples` to `[1, 4]`, and
replacing a width/height outside `{256, 512, 768, 1024}` with 512 — is
idempotent; a width of 999 normalizes to 512; and the generation call is
always dispatched with the normalized parameters. -/
theorem normalization_idempotent :
    (∀ p : NormParams, normalizeParams (normalizeParams p) = normalizeParams p) ∧
    (∀ p : NormParams, p.width = 999 → (normalizeParams p).width = 512) ∧
    (∀ (cooldown : Int) (banned : List String) (dm : String)
        (g : Except String (List Artifact)) (rOk : Bool)
        (lastMap : Nat → ℚ) (inp : SlashInput),
      ¬(inp.now - lastMap inp.uid < (cooldown : ℚ)) →
      contentBlockedCond banned inp = false →
      ∃ req, (slash_resim cooldown banned dm g rOk lastMap inp).dispatched
          = some req ∧
        req.params = normalizeParams
          { steps := inp.steps, cfg_scale := inp.cfg_scale
            width := inp.width, height := inp.height
            samples := inp.samples }) := by
  refine ⟨?_, ?_, ?_⟩
  · intro p
    simp only [normalizeParams, NormParams.mk.injEq]
    refine ⟨?_, ?_, ?_, ?_, ?_⟩
    · exact clamp_idem 10 80 p.steps (by decide)
    · exact clamp_idem 1 30 p.cfg_scale (by norm_num)
    · simp [allowedDim_coerced p.width]
    · simp [allowedDim_coerced p.height]
    · exact clamp_idem 1 4 p.samples (by decide)
  · intro p hp
    simp [normalizeParams, hp, allowedDim]
  · intro cooldown banned dm g rOk lastMap inp h1 h2
    match g with
    | .error e =>
      rw [slash_resim_error_case cooldown banned dm e rOk lastMap inp h1 h2]
      exact ⟨assembledReq dm inp, rfl, rfl⟩
    | .ok [] =>
      rw [slash_resim_empty_case cooldown banned dm rOk lastMap inp h1 h2]
      exact ⟨assembledReq dm inp, rfl, rfl⟩
    | .ok (r :: rest) =>
      rw [slash_resim_ok_case cooldown banned dm r rest rOk lastMap inp h1 h2]
      exact ⟨assembledReq dm inp, rfl, rfl⟩

/-- Witness for C8: a request with width 999 dispatches a generation
call whose width is 512, and normalization is idempotent there. -/
theorem normalization_idempotent_witness :
    (normalizeParams (normalizeParams
        { steps := 30, cfg_scale := 7, width := 999, height := 512, samples := 1 })
      = normalizeParams
        { steps := 30, cfg_scale := 7, width := 999, height := 512, samples := 1 }) ∧
    ((999 : Int) = 999 →
      (normalizeParams
        { steps := 30, cfg_scale := 7, width := 999, height := 512, samples := 1 }).width
        = 512) ∧
    (∃ req, (slash_resim 10 [] "m" (.ok []) true (fun _ => 0)
        { uid := 1, now := 100, prompt := "p", width := 999 }).dispatched
          = some req ∧
      req.params = normalizeParams
        { steps := 30, cfg_scale := 7, width := 999, height := 512, samples := 1 }) := by
  refine ⟨normalization_idempotent.1 _, fun _ => normalization_idempotent.2.1 _ rfl, ?_⟩
  exact normalization_idempotent.2.2 10 [] "m" (.ok []) true (fun _ => 0)
    { uid := 1, now := 100, prompt := "p", width := 999 }
    (by norm_num) (by decide)

/-! ## Claim C5 -/

/-- Claim C5 (corrected): `prompt_blocked` lowercases the text but not
the block-list terms, so it returns true exactly when some listed term
occurs verbatim in the lowercased text; that coincides with
case-insensitive matching precisely when every listed term is already
lowercase. On a match of the prompt or (truthy) negative prompt, the
request is rejected with no generation call and no usage row. -/
theorem blocklist_matching_behavior :
    (∀ (banned : List String) (text : String),
      (∀ w ∈ banned, lowerStr w = w) →
      (prompt_blocked banned text = true ↔
        ∃ w ∈ banned, ciOccurs w text = true)) ∧
    (∀ (cooldown : Int) (banned : List String) (dm : String)
        (g : Except String (List Artifact)) (rOk : Bool)
        (lastMap : Nat → ℚ) (inp : SlashInput),
      ¬(inp.now - lastMap inp.uid < (cooldown : ℚ)) →
      contentBlockedCond banned inp = true →
      (slash_resim cooldown banned dm g rOk lastMap inp).messages
        = [Msg.blocked] ∧
      (slash_resim cooldown banned dm g rOk lastMap inp).dispatched = none ∧
      (slash_resim cooldown banned dm g rOk lastMap inp).recorded = []) := by
  constructor
  · intro banned text hlow
    rw [prompt_blocked, List.any_eq_true]
    constructor
    · rintro ⟨w, hmem, hw⟩
      exact ⟨w, hmem, by rw [ciOccurs, hlow w hmem]; exact hw⟩
    · rintro ⟨w, hmem, hw⟩
      exact ⟨w, hmem, by rw [ciOccurs, hlow w hmem] at hw; exact hw⟩
  · intro cooldown banned dm g rOk lastMap inp h1 h2
    rw [slash_resim_blocked_case cooldown banned dm g rOk lastMap inp h1 h2]
    exact ⟨rfl, rfl, rfl⟩

/-- Witness for C5 (amended form): with the lowercase list `["bad"]`,
the text `"xBADy"` is blocked, and a blocked prompt is rejected with no
dispatch. -/
theorem blocklist_matching_behavior_witness :
    (∀ w ∈ ["bad"], lowerStr w = w) ∧
    prompt_blocked ["bad"] "xBADy" = true ∧
    (slash_resim 10 ["bad"] "m" (.ok []) true (fun _ => 0)
        { uid := 1, now := 100, prompt := "BAD" }).dispatched = none := by
  refine ⟨by decide, ?_, ?_⟩
  · exact ((blocklist_matching_behavior.1 ["bad"] "xBADy" (by decide)).mpr
      ⟨"bad", by decide, by decide⟩)
  · exact (blocklist_matching_behavior.2 10 ["bad"] "m" (.ok []) true
      (fun _ => 0) { uid := 1, now := 100, prompt := "BAD" }
      (by norm_num) (by decide)).2.1

/-- Counterexample for C5 as stated: the term `"A"` occurs
case-insensitively in the text `"a"`, yet `prompt_blocked` returns
false, because the block-list term is never lowercased. -/
theorem blocklist_case_counterexample :
    (∃ w ∈ ["A"], ciOccurs w "a" = true) ∧
    prompt_blocked ["A"] "a" = false := by
  exact ⟨⟨"A", by decide, by decide⟩, by decide⟩

/-! ## Delivery-loop characterization -/

theorem image_mem_deliveryLoop (l : List Artifact) (i k : Nat)
    (s : Option Int) :
    Msg.image k s ∈ (deliveryLoop l i).1 ↔
      ∃ j, ∃ hj : j < l.length, k = i + j ∧
        isFilteredArtifact (l.get ⟨j, hj⟩) = false ∧
        s = (l.get ⟨j, hj⟩).seed := by
  induction l generalizing i with
  | nil => simp [deliveryLoop]
  | cons r rest ih =>
    by_cases hf : isFilteredArtifact r = true
    · simp only [deliveryLoop, hf, if_true, List.mem_cons]
      constructor
      · rintro (habs | hmem)
        · cases habs
        · obtain ⟨j, hj, hk, hfil, hs⟩ := (ih (i + 1)).mp hmem
          exact ⟨j + 1, by simp only [List.length_cons]; omega, by omega,
            hfil, hs⟩
      · rintro ⟨j, hj, hk, hfil, hs⟩
        match j, hj with
        | 0, hj =>
          have h0 : isFilteredArtifact r = false := hfil
          rw [hf] at h0
          simp at h0
        | j' + 1, hj =>
          refine Or.inr ((ih (i + 1)).mpr
            ⟨j', by simp only [List.length_cons] at hj; omega, by omega,
              hfil, hs⟩)
    · rw [Bool.not_eq_true] at hf
      simp only [deliveryLoop, hf, Bool.false_eq_true, if_false, List.mem_cons]
      constructor
      · rintro (heq | hmem)
        · cases heq
          exact ⟨0, by simp, by omega, hf, rfl⟩
        · obtain ⟨j, hj, hk, hfil, hs⟩ := (ih (i + 1)).mp hmem
          exact ⟨j + 1, by simp only [List.length_cons]; omega, by omega,
            hfil, hs⟩
      · rintro ⟨j, hj, hk, hfil, hs⟩
        match j, hj with
        | 0, hj =>
          left
          have hs0 : s = r.seed := hs
          subst hs0
          rw [hk, Nat.add_zero]
        | j' + 1, hj =>
          refine Or.inr ((ih (i + 1)).mpr
            ⟨j', by simp only [List.length_cons] at hj; omega, by omega,
              hfil, hs⟩)

theorem filteredNotice_mem_deliveryLoop (l : List Artifact) (i j : Nat)
    (hj : j < l.length)
    (hf : isFilteredArtifact (l.get ⟨j, hj⟩) = true) :
    Msg.filteredNotice (finishOf (l.get ⟨j, hj⟩)) ∈ (deliveryLoop l i).1 := by
  induction l generalizing i j with
  | nil => cases hj
  | cons r rest ih =>
    match j with
    | 0 =>
      simp only [List.get] at hf ⊢
      simp [deliveryLoop, hf]
    | j' + 1 =>
      have hj' : j' < rest.length := by
        simp only [List.length_cons] at hj
        omega
      have hmem := ih (i + 1) j' hj' hf
      by_cases hfr : isFilteredArtifact r = true
      · simp only [deliveryLoop, hfr, if_true]
        exact List.mem_cons_of_mem _ hmem
      · simp only [deliveryLoop, hfr, if_false]
        exact List.mem_cons_of_mem _ hmem

theorem deliveryLoop_sent_empty (l : List Artifact) (i : Nat) :
    (deliveryLoop l i).2 = [] ↔ ∀ r ∈ l, isFilteredArtifact r = true := by
  induction l generalizing i with
  | nil => simp [deliveryLoop]
  | cons r rest ih =>
    by_cases hf : isFilteredArtifact r = true
    · simp only [deliveryLoop, hf, if_true]
      rw [ih (i + 1)]
      simp [hf]
    · simp only [deliveryLoop, hf, if_false]
      constructor
      · intro habs; cases habs
      · intro hall
        exact absurd (hall r (List.mem_cons_self r rest)) hf

/-! ## Claim C2 -/

/-- Claim C2 (confirmed): with a working usage store, exactly one
UsageRecord is written iff the generation call returns at least one
artifact — an exception (`UpstreamError`/`DecodeError`) or an empty
result writes nothing, while a nonempty result writes exactly one row
even if every artifact is filtered — and the row stores the originally
requested seed. -/
theorem usage_record_iff_artifacts (cooldown : Int) (banned : List String)
    (dm : String) (genResult : Except String (List Artifact))
    (lastMap : Nat → ℚ) (inp : SlashInput)
    (h1 : ¬(inp.now - lastMap inp.uid < (cooldown : ℚ)))
    (h2 : contentBlockedCond banned inp = false) :
    (∀ e, genResult = .error e →
      (slash_resim cooldown banned dm genResult true lastMap inp).recorded
        = []) ∧
    (genResult = .ok [] →
      (slash_resim cooldown banned dm genResult true lastMap inp).recorded
        = []) ∧
    (∀ results, genResult = .ok results → results ≠ [] →
      (slash_resim cooldown banned dm genResult true lastMap inp).recorded
        = [assembledRecord dm inp] ∧
      (assembledRecord dm inp).seed = inp.seed) := by
  refine ⟨?_, ?_, ?_⟩
  · rintro e rfl
    rw [slash_resim_error_case cooldown banned dm e true lastMap inp h1 h2]
  · rintro rfl
    rw [slash_resim_empty_case cooldown banned dm true lastMap inp h1 h2]
  · rintro results rfl hne
    obtain ⟨r, rest, rfl⟩ := List.exists_cons_of_ne_nil hne
    rw [slash_resim_ok_case cooldown banned dm r rest true lastMap inp h1 h2]
    exact ⟨rfl, rfl⟩

/-- Witness for C2: a nonempty, fully filtered result still writes one
row carrying the requested seed 5; a raised error writes none. -/
theorem usage_record_iff_artifacts_witness :
    (slash_resim 10 [] "m"
        (.ok [{ bytes := [1], seed := some 42
                finish_reason := some "CONTENT_FILTERED" }])
        true (fun _ => 0)
        { uid := 1, now := 100, prompt := "p", seed := some 5 }).recorded
      = [assembledRecord "m"
          { uid := 1, now := 100, prompt := "p", seed := some 5 }] ∧
    (assembledRecord "m"
        { uid := 1, now := 100, prompt := "p", seed := some 5 }).seed
      = some 5 ∧
    (slash_resim 10 [] "m" (.error "boom") true (fun _ => 0)
        { uid := 1, now := 100, prompt := "p", seed := some 5 }).recorded
      = [] := by
  have h1 : ¬(((100 : ℚ) - (fun _ : Nat => (0 : ℚ)) 1)
      < ((10 : Int) : ℚ)) := by norm_num
  have hmain := usage_record_iff_artifacts 10 [] "m"
    (.ok [{ bytes := [1], seed := some 42
            finish_reason := some "CONTENT_FILTERED" }])
    (fun _ => 0) { uid := 1, now := 100, prompt := "p", seed := some 5 }
    h1 (by decide)
  have herr := usage_record_iff_artifacts 10 [] "m" (.error "boom")
    (fun _ => 0) { uid := 1, now := 100, prompt := "p", seed := some 5 }
    h1 (by decide)
  obtain ⟨ha, hb⟩ := hmain.2.2 _ rfl (by simp)
  exact ⟨ha, hb, herr.1 "boom" rfl⟩

/-! ## Claim C3 -/

/-- Claim C3 (confirmed): an artifact whose finish reason contains
"FILTER" or "CONTENT" (the code uppercases the reason first, so the
match is case-insensitive) is never delivered — a per-artifact notice is
sent instead — and the other artifacts of the same response are still
delivered; if nothing was delivered, a final overall-failure notice is
sent. -/
theorem filtered_artifacts_skipped (cooldown : Int) (banned : List String)
    (dm : String) (results : List Artifact) (rOk : Bool)
    (lastMap : Nat → ℚ) (inp : SlashInput)
    (h1 : ¬(inp.now - lastMap inp.uid < (cooldown : ℚ)))
    (h2 : contentBlockedCond banned inp = false)
    (hne : results ≠ []) :
    (∀ j (hj : j < results.length),
      isFilteredArtifact (results.get ⟨j, hj⟩) = true →
        (∀ s, Msg.image (j + 1) s ∉
          (slash_resim cooldown banned dm (.ok results) rOk lastMap inp).messages) ∧
        Msg.filteredNotice (finishOf (results.get ⟨j, hj⟩)) ∈
          (slash_resim cooldown banned dm (.ok results) rOk lastMap inp).messages) ∧
    (∀ j (hj : j < results.length),
      isFilteredArtifact (results.get ⟨j, hj⟩) = false →
        Msg.image (j + 1) ((results.get ⟨j, hj⟩).seed) ∈
          (slash_resim cooldown banned dm (.ok results) rOk lastMap inp).messages) ∧
    ((∀ r ∈ results, isFilteredArtifact r = true) →
      Msg.nothingDelivered ∈
        (slash_resim cooldown banned dm (.ok results) rOk lastMap inp).messages) := by
  obtain ⟨r0, rest0, rfl⟩ := List.exists_cons_of_ne_nil hne
  rw [slash_resim_ok_case cooldown banned dm r0 rest0 rOk lastMap inp h1 h2]
  refine ⟨?_, ?_, ?_⟩
  · intro j hj hf
    constructor
    · intro s hmem
      rw [List.mem_append] at hmem
      rcases hmem with hmem | hmem
      · obtain ⟨j', hj', hk, hfil, _⟩ :=
          (image_mem_deliveryLoop (r0 :: rest0) 1 (j + 1) s).mp hmem
        have : j' = j := by omega
        subst this
        rw [hf] at hfil
        cases hfil
      · revert hmem
        split
        · simp
        · simp
    · exact List.mem_append_left _
        (filteredNotice_mem_deliveryLoop (r0 :: rest0) 1 j hj hf)
  · intro j hj hf
    exact List.mem_append_left _
      ((image_mem_deliveryLoop (r0 :: rest0) 1 (j + 1)
          ((r0 :: rest0).get ⟨j, hj⟩).seed).mpr
        ⟨j, hj, by omega, hf, rfl⟩)
  · intro hall
    have hsent : (deliveryLoop (r0 :: rest0) 1).2 = [] :=
      (deliveryLoop_sent_empty (r0 :: rest0) 1).mpr hall
    apply List.mem_append_right
    rw [hsent]
    simp

/-- Witness for C3: in a two-artifact response where the first artifact
is content-filtered and the second succeeds, the first image is never
sent and gets a notice, while the second image is still delivered. -/
theorem filtered_artifacts_skipped_witness :
    (([{ bytes := [1], seed := none, finish_reason := some "CONTENT_FILTERED" },
       { bytes := [2], seed := none, finish_reason := some "SUCCESS" }] :
        List Artifact) ≠ []) ∧
    (∀ s, Msg.image 1 s ∉
      (slash_resim 10 [] "m"
        (.ok [{ bytes := [1], seed := none
                finish_reason := some "CONTENT_FILTERED" },
              { bytes := [2], seed := none
                finish_reason := some "SUCCESS" }])
        true (fun _ => 0) { uid := 1, now := 100, prompt := "p" }).messages) ∧
    Msg.filteredNotice (finishOf
        { bytes := [1], seed := none
          finish_reason := some "CONTENT_FILTERED" }) ∈
      (slash_resim 10 [] "m"
        (.ok [{ bytes := [1], seed := none
                finish_reason := some "CONTENT_FILTERED" },
              { bytes := [2], seed := none
                finish_reason := some "SUCCESS" }])
        true (fun _ => 0) { uid := 1, now := 100, prompt := "p" }).messages ∧
    Msg.image 2 none ∈
      (slash_resim 10 [] "m"
        (.ok [{ bytes := [1], seed := none
                finish_reason := some "CONTENT_FILTERED" },
              { bytes := [2], seed := none
                finish_reason := some "SUCCESS" }])
        true (fun _ => 0) { uid := 1, now := 100, prompt := "p" }).messages := by
  have h1 : ¬(((100 : ℚ) - (fun _ : Nat => (0 : ℚ)) 1)
      < ((10 : Int) : ℚ)) := by norm_num
  have hmain := filtered_artifacts_skipped 10 [] "m"
    [{ bytes := [1], seed := none, finish_reason := some "CONTENT_FILTERED" },
     { bytes := [2], seed := none, finish_reason := some "SUCCESS" }]
    true (fun _ => 0) { uid := 1, now := 100, prompt := "p" }
    h1 (by decide) (by simp)
  have hfirst := hmain.1 0 (by simp) (by decide)
  exact ⟨by simp, hfirst.1, hfirst.2, hmain.2.1 1 (by simp) (by decide)⟩

/-! ## Claim C9 -/

/-- Claim C9 (corrected): a failing usage-store write never changes the
user-visible messages or the cooldown state and never aborts the
already-delivered response, but contrary to the claim it is not
surfaced anywhere: the handler is a bare catch-and-ignore, so nothing
reaches any log or metric channel. -/
theorem recorder_failure_contained (cooldown : Int) (banned : List String)
    (dm : String) (genResult : Except String (List Artifact))
    (lastMap : Nat → ℚ) (inp : SlashInput) :
    (slash_resim cooldown banned dm genResult false lastMap inp).messages
      = (slash_resim cooldown banned dm genResult true lastMap inp).messages ∧
    (slash_resim cooldown banned dm genResult false lastMap inp).newLast
      = (slash_resim cooldown banned dm genResult true lastMap inp).newLast ∧
    (slash_resim cooldown banned dm genResult false lastMap inp).observed
      = [] ∧
    (slash_resim cooldown banned dm genResult false lastMap inp).recorded
      = [] := by
  by_cases h1 : inp.now - lastMap inp.uid < (cooldown : ℚ)
  · rw [slash_resim_cooldown_case cooldown banned dm genResult false lastMap inp h1,
      slash_resim_cooldown_case cooldown banned dm genResult true lastMap inp h1]
    exact ⟨rfl, rfl, rfl, rfl⟩
  · cases hb : contentBlockedCond banned inp with
    | true =>
      rw [slash_resim_blocked_case cooldown banned dm genResult false lastMap inp h1 hb,
        slash_resim_blocked_case cooldown banned dm genResult true lastMap inp h1 hb]
      exact ⟨rfl, rfl, rfl, rfl⟩
    | false =>
      match genResult with
      | .error e =>
        rw [slash_resim_error_case cooldown banned dm e false lastMap inp h1 hb,
          slash_resim_error_case cooldown banned dm e true lastMap inp h1 hb]
        exact ⟨rfl, rfl, rfl, rfl⟩
      | .ok [] =>
        rw [slash_resim_empty_case cooldown banned dm false lastMap inp h1 hb,
          slash_resim_empty_case cooldown banned dm true lastMap inp h1 hb]
        exact ⟨rfl, rfl, rfl, rfl⟩
      | .ok (r :: rest) =>
        rw [slash_resim_ok_case cooldown banned dm r rest false lastMap inp h1 hb,
          slash_resim_ok_case cooldown banned dm r rest true lastMap inp h1 hb]
        exact ⟨rfl, rfl, rfl, rfl⟩

/-- Counterexample for C9 as stated: on a delivered response whose
usage-store write fails, nothing at all is surfaced to an observability
channel — the failure is discarded silently. -/
theorem recorder_failure_observability_counterexample :
    (slash_resim 10 [] "m" (.ok [{ bytes := [1] }]) false (fun _ => 0)
        { uid := 1, now := 100, prompt := "p" }).observed = [] ∧
    (slash_resim 10 [] "m" (.ok [{ bytes := [1] }]) false (fun _ => 0)
        { uid := 1, now := 100, prompt := "p" }).recorded = [] ∧
    (slash_resim 10 [] "m" (.ok [{ bytes := [1] }]) false (fun _ => 0)
        { uid := 1, now := 100, prompt := "p" }).messages
      = [Msg.image 1 none] := by
  rw [slash_resim_ok_case 10 [] "m" { bytes := [1] } [] false (fun _ => 0)
    { uid := 1, now := 100, prompt := "p" } (by norm_num) (by decide)]
  refine ⟨rfl, rfl, ?_⟩
  simp [deliveryLoop, isFilteredArtifact, finishOf, pyTruthyStr, strIn,
    listContains, matchesAt, upperStr]

/-! ## Generation-client lemmas -/

/-- A stub decoder for concrete runs: fails on `"bad"`, else one byte. -/
def decStub : String → Except String (List Nat) :=
  fun s => if s = "bad" then .error "oops" else .ok [0]

theorem processArtifacts_congr_entry (dec : String → Except String (List Nat))
    (pre post : List ArtEntry) (e1 e2 : ArtEntry)
    (hb : getB64 e1 = getB64 e2) (hf : getFinish e1 = getFinish e2)
    (hs : e1.seed = e2.seed) :
    processArtifacts dec (pre ++ e1 :: post)
      = processArtifacts dec (pre ++ e2 :: post) := by
  induction pre with
  | nil =>
    simp only [List.nil_append, processArtifacts]
    rw [hb, hf, hs]
  | cons p pre' ih =>
    simp only [List.cons_append, processArtifacts, List.append_eq]
    rw [ih]

theorem processArtifacts_ok_filterMap (dec : String → Except String (List Nat))
    (l : List ArtEntry) (out : List Artifact)
    (h : processArtifacts dec l = .ok out) :
    out = l.filterMap (keptArtifact dec) := by
  induction l generalizing out with
  | nil =>
    simp only [processArtifacts] at h
    cases h
    simp
  | cons e rest ih =>
    simp only [processArtifacts] at h
    rw [List.filterMap_cons]
    cases hgb : getB64 e with
    | none =>
      simp only [hgb] at h
      simp only [keptArtifact, hgb]
      exact ih out h
    | some s =>
      simp only [hgb] at h
      cases hd : dec s with
      | error msg =>
        simp only [hd] at h
        cases h
      | ok bts =>
        simp only [hd] at h
        cases hrec : processArtifacts dec rest with
        | error m' =>
          simp only [hrec] at h
          cases h
        | ok tail =>
          simp only [hrec, Except.ok.injEq] at h
          subst h
          simp only [keptArtifact, hgb, hd]
          rw [ih tail hrec]

theorem processArtifacts_error_shape (dec : String → Except String (List Nat))
    (l : List ArtEntry) (m : String)
    (h : processArtifacts dec l = .error m) :
    ∃ emsg, m = decodeMsg emsg ∧
      ∃ e ∈ l, ∃ s, getB64 e = some s ∧ dec s = .error emsg := by
  induction l generalizing m with
  | nil => simp [processArtifacts] at h
  | cons e rest ih =>
    simp only [processArtifacts] at h
    cases hgb : getB64 e with
    | none =>
      simp only [hgb] at h
      obtain ⟨emsg, hm, e', hmem, s, hgb', hd⟩ := ih m h
      exact ⟨emsg, hm, e', List.mem_cons_of_mem _ hmem, s, hgb', hd⟩
    | some s =>
      simp only [hgb] at h
      cases hd : dec s with
      | error msg =>
        simp only [hd, Except.error.injEq] at h
        subst h
        exact ⟨msg, rfl, e, List.mem_cons_self e rest, s, hgb, hd⟩
      | ok bts =>
        simp only [hd] at h
        cases hrec : processArtifacts dec rest with
        | error m' =>
          simp only [hrec, Except.error.injEq] at h
          subst h
          obtain ⟨emsg, hm, e', hmem, s', hgb', hd'⟩ := ih m' hrec
          exact ⟨emsg, hm, e', List.mem_cons_of_mem _ hmem, s', hgb', hd'⟩
        | ok tail =>
          simp only [hrec] at h
          cases h

/-! ## Claim C6 -/

/-- Claim C6 (corrected): for a nonempty artifact array the client
yields the same artifact list whether the array is flat or nested one
extra level; image data under `base64` or `b64_json` decodes
identically; entries without image data are skipped without error; and
on success the output is the in-order filter-map of the entries. The
nonemptiness proviso is forced: an empty flat array is falsy and falls
back to the `result` field, while an empty nested array `[[]]` does
not. -/
theorem response_normalization_behavior :
    (∀ (dec : String → Except String (List Nat)) (t : String)
        (res : Option ArtsVal) (l : List ArtEntry), l ≠ [] →
      call_stability_generate dec 200 t
          { artifacts := some (.nested [l]), result := res }
        = call_stability_generate dec 200 t
          { artifacts := some (.flat l), result := res }) ∧
    (∀ (dec : String → Except String (List Nat)) (pre post : List ArtEntry)
        (s : String) (fr fr2 : Option String) (sd : Option Int), s ≠ "" →
      processArtifacts dec (pre ++
          { base64 := some s, b64_json := none, b64 := none
            finishReason := fr, finish_reason := fr2, seed := sd } :: post)
        = processArtifacts dec (pre ++
          { base64 := none, b64_json := some s, b64 := none
            finishReason := fr, finish_reason := fr2, seed := sd } :: post)) ∧
    (∀ (dec : String → Except String (List Nat)) (e : ArtEntry)
        (rest : List ArtEntry), getB64 e = none →
      processArtifacts dec (e :: rest) = processArtifacts dec rest) ∧
    (∀ (dec : String → Except String (List Nat)) (l : List ArtEntry)
        (out : List Artifact), processArtifacts dec l = .ok out →
      out = l.filterMap (keptArtifact dec)) := by
  refine ⟨?_, ?_, ?_, processArtifacts_ok_filterMap⟩
  · intro dec t res l hne
    obtain ⟨e, l', rfl⟩ := List.exists_cons_of_ne_nil hne
    simp [call_stability_generate, selectArtifacts, artsTruthy]
  · intro dec pre post s fr fr2 sd hs
    have ht : s.isEmpty = false := by
      cases hcase : s.isEmpty with
      | false => rfl
      | true => exact absurd ((String.isEmpty_iff s).mp hcase) hs
    apply processArtifacts_congr_entry
    · simp [getB64, pyTruthyStr, ht]
    · rfl
    · rfl
  · intro dec e rest h
    simp only [processArtifacts, h]

/-- Witness for C6: concrete nonempty array, concrete field-variant
entries and a concrete successful run. -/
theorem response_normalization_behavior_witness :
    (([({ base64 := some "AA" } : ArtEntry)] : List ArtEntry) ≠ []) ∧
    call_stability_generate decStub 200 ""
        { artifacts := some (.nested [[{ base64 := some "AA" }]])
          result := none }
      = call_stability_generate decStub 200 ""
        { artifacts := some (.flat [{ base64 := some "AA" }])
          result := none } ∧
    processArtifacts decStub
        [{ base64 := some "AA", b64_json := none, b64 := none
           finishReason := none, finish_reason := none, seed := none }]
      = processArtifacts decStub
        [{ base64 := none, b64_json := some "AA", b64 := none
           finishReason := none, finish_reason := none, seed := none }] ∧
    ([{ bytes := [0], seed := none, finish_reason := none }] : List Artifact)
      = ([({ base64 := some "AA" } : ArtEntry)]).filterMap
          (keptArtifact decStub) := by
  refine ⟨by simp, ?_, ?_, ?_⟩
  · exact response_normalization_behavior.1 decStub "" none
      [{ base64 := some "AA" }] (by simp)
  · exact response_normalization_behavior.2.1 decStub [] [] "AA" none none
      none (by simp)
  · exact response_normalization_behavior.2.2.2 decStub
      [{ base64 := some "AA" }] [{ bytes := [0] }] (by decide)

/-- Counterexample for C6 as stated: with an empty artifact array and a
populated `result` fallback field, the flat form `[]` is falsy and falls
back to `result` (yielding one artifact), while the nested form `[[]]`
is truthy and yields none — different artifact lists. -/
theorem response_normalization_counterexample :
    call_stability_generate decStub 200 ""
        { artifacts := some (.flat [])
          result := some (.flat [{ base64 := some "AA" }]) }
      ≠ call_stability_generate decStub 200 ""
        { artifacts := some (.nested [[]])
          result := some (.flat [{ base64 := some "AA" }]) } := by
  decide

/-! ## Claim C7 -/

/-- Claim C7 (corrected): a non-success HTTP status raises an error
carrying the status code and raw body, and a base64 decode failure
raises an error with a distinct fixed prefix — the two are
distinguishable by their messages — but the decode error does not
identify which artifact failed: its message depends only on the
decoder's own message, not on the artifact's position. -/
theorem error_taxonomy_behavior :
    (∀ (dec : String → Except String (List Nat)) (status : Nat)
        (t : String) (d : RespData), status ≠ 200 →
      call_stability_generate dec status t d
        = .error (upstreamMsg status t)) ∧
    (∀ (dec : String → Except String (List Nat)) (l : List ArtEntry)
        (m : String), processArtifacts dec l = .error m →
      ∃ emsg, m = decodeMsg emsg ∧
        ∃ e ∈ l, ∃ s, getB64 e = some s ∧ dec s = .error emsg) ∧
    (∀ (status : Nat) (t e : String), upstreamMsg status t ≠ decodeMsg e) := by
  refine ⟨?_, processArtifacts_error_shape, ?_⟩
  · intro dec status t d hst
    simp [call_stability_generate, hst]
  · intro status t e h
    have hh := congrArg (fun s => s.data.head?) h
    simp only [upstreamMsg, decodeMsg, String.data_append] at hh
    simp [List.cons_append] at hh

/-- Witness for C7: an HTTP 400 yields the upstream error carrying
status and body; a concrete decode failure yields a decode-prefixed
message produced by some failing entry. -/
theorem error_taxonomy_behavior_witness :
    ((400 : Nat) ≠ 200) ∧
    call_stability_generate decStub 400 "body"
        { artifacts := none, result := none }
      = .error (upstreamMsg 400 "body") ∧
    (∃ emsg, decodeMsg "oops" = decodeMsg emsg ∧
      ∃ e ∈ [({ base64 := some "bad" } : ArtEntry)], ∃ s,
        getB64 e = some s ∧ decStub s = .error emsg) := by
  refine ⟨by decide, ?_, ?_⟩
  · exact error_taxonomy_behavior.1 decStub 400 "body"
      { artifacts := none, result := none } (by decide)
  · exact error_taxonomy_behavior.2.1 decStub
      [{ base64 := some "bad" }] (decodeMsg "oops") (by decide)

/-- Counterexample for C7 as stated: the decode error for a one-entry
response failing at position 0 is byte-for-byte identical to the one for
a two-entry response failing at position 1 (the first entry of which
decodes fine), so the error does not identify which artifact failed. -/
theorem decode_error_identity_counterexample :
    processArtifacts decStub [{ base64 := some "bad" }]
      = .error (decodeMsg "oops") ∧
    processArtifacts decStub
        [{ base64 := some "AA" }, { base64 := some "bad" }]
      = .error (decodeMsg "oops") ∧
    keptArtifact decStub { base64 := some "AA" } ≠ none := by
  decide

/-! ## Gate lemmas -/

theorem scoped_callStabilityTrace (o : Except String RespData) :
    Scoped (callStabilityTrace o).1 false := by
  cases o with
  | ok d => exact Scoped.acq _ (Scoped.call true _ _ (Scoped.rel _ Scoped.nil))
  | error e => exact Scoped.acq _ (Scoped.call false _ _ (Scoped.rel _ Scoped.nil))

/-- Number of permit-holding tasks in a task list. -/
def countHolding (ts : List GateTask) : Nat := (ts.filter (·.holding)).length

/-- The gate invariant: free permits plus held permits equal the
configured maximum, and every task's remaining trace is permit-scoped
relative to its holding state. -/
def GateInv (maxConc : Nat) (s : GateSt) : Prop :=
  s.permits + countHolding s.tasks = maxConc ∧
  ∀ t ∈ s.tasks, Scoped t.trace t.holding

theorem scoped_acq_inv {r : List GEvent} {b : Bool}
    (h : Scoped (GEvent.acq :: r) b) : b = false ∧ Scoped r true := by
  cases h with
  | acq _ h' => exact ⟨rfl, h'⟩

theorem scoped_rel_inv {r : List GEvent} {b : Bool}
    (h : Scoped (GEvent.rel :: r) b) : b = true ∧ Scoped r false := by
  cases h with
  | rel _ h' => exact ⟨rfl, h'⟩

theorem scoped_call_inv {ok : Bool} {r : List GEvent} {b : Bool}
    (h : Scoped (GEvent.call ok :: r) b) : Scoped r b := by
  cases h with
  | call _ _ _ h' => exact h'

theorem countHolding_append_cons (pre post : List GateTask) (t : GateTask) :
    countHolding (pre ++ t :: post)
      = countHolding pre + countHolding post
        + (if t.holding then 1 else 0) := by
  simp only [countHolding, List.filter_append, List.filter_cons,
    List.length_append]
  cases h : t.holding with
  | false => simp
  | true => simp [List.length_cons]; omega

theorem gateStep_inv (maxConc : Nat) (s s' : GateSt)
    (hinv : GateInv maxConc s) (hstep : GateStep s s') :
    GateInv maxConc s' := by
  obtain ⟨pre, post, p, p', t, t', tstep⟩ := hstep
  obtain ⟨hsum, hscoped⟩ := hinv
  have hscoped_t : Scoped t.trace t.holding :=
    hscoped t (by simp)
  have hscoped_pre : ∀ u ∈ pre, Scoped u.trace u.holding := by
    intro u hu
    exact hscoped u (by simp [hu])
  have hscoped_post : ∀ u ∈ post, Scoped u.trace u.holding := by
    intro u hu
    exact hscoped u (by simp [hu])
  rw [countHolding_append_cons] at hsum
  cases tstep with
  | acq q r b =>
    obtain ⟨hb, hr⟩ := scoped_acq_inv hscoped_t
    subst hb
    constructor
    · simp only [countHolding_append_cons]
      simp only [if_true] at *
      simp at hsum ⊢
      omega
    · intro u hu
      rw [List.mem_append, List.mem_cons] at hu
      rcases hu with hu | rfl | hu
      · exact hscoped_pre u hu
      · exact hr
      · exact hscoped_post u hu
  | rel q r b =>
    obtain ⟨hb, hr⟩ := scoped_rel_inv hscoped_t
    subst hb
    constructor
    · simp only [countHolding_append_cons]
      simp at hsum ⊢
      omega
    · intro u hu
      rw [List.mem_append, List.mem_cons] at hu
      rcases hu with hu | rfl | hu
      · exact hscoped_pre u hu
      · exact hr
      · exact hscoped_post u hu
  | call q ok r b =>
    have hr := scoped_call_inv hscoped_t
    constructor
    · simp only [countHolding_append_cons]
      simp at hsum ⊢
      omega
    · intro u hu
      rw [List.mem_append, List.mem_cons] at hu
      rcases hu with hu | rfl | hu
      · exact hscoped_pre u hu
      · exact hr
      · exact hscoped_post u hu

theorem gateReach_inv (maxConc : Nat) (s s' : GateSt)
    (hinv : GateInv maxConc s) (hreach : gateReach s s') :
    GateInv maxConc s' := by
  unfold gateReach at hreach
  induction hreach with
  | refl => exact hinv
  | tail _ hstep ih => exact gateStep_inv maxConc _ _ ih hstep

theorem initGate_inv (maxConc : Nat) (traces : List (List GEvent))
    (htr : ∀ tr ∈ traces, ∃ o, tr = (callStabilityTrace o).1) :
    GateInv maxConc (initGate maxConc traces) := by
  constructor
  · have : countHolding (traces.map fun tr => ⟨tr, false⟩) = 0 := by
      induction traces with
      | nil => rfl
      | cons tr rest ih => simpa [countHolding, List.filter_cons] using ih
    simp [initGate, this]
  · intro t ht
    simp only [initGate, List.mem_map] at ht
    obtain ⟨tr, htr', rfl⟩ := ht
    obtain ⟨o, rfl⟩ := htr tr htr'
    exact scoped_callStabilityTrace o

/-! ## Claim C4 -/

/-- Claim C4 (confirmed): every generation call acquires one semaphore
permit, makes the HTTP call, and releases the permit exactly once on
every exit path — the `finally` releases whether the call succeeds or
raises — so under interleaved execution of such tasks, the number of
tasks simultaneously holding a permit (in-flight calls) never exceeds
the configured maximum. -/
theorem gate_scoped_release_and_bound :
    (∀ outcome : Except String RespData,
      ∃ b, (callStabilityTrace outcome).1
          = [GEvent.acq, GEvent.call b, GEvent.rel] ∧
        (callStabilityTrace outcome).1.count GEvent.acq = 1 ∧
        (callStabilityTrace outcome).1.count GEvent.rel = 1) ∧
    (∀ (maxConc : Nat) (traces : List (List GEvent)) (s : GateSt),
      (∀ tr ∈ traces, ∃ o, tr = (callStabilityTrace o).1) →
      gateReach (initGate maxConc traces) s →
      inFlight s ≤ maxConc) := by
  constructor
  · intro outcome
    cases outcome with
    | ok d => exact ⟨true, rfl, rfl, rfl⟩
    | error e => exact ⟨false, rfl, rfl, rfl⟩
  · intro maxConc traces s htr hreach
    have hinv := gateReach_inv maxConc _ s (initGate_inv maxConc traces htr)
      hreach
    have hsum := hinv.1
    have : inFlight s = countHolding s.tasks := rfl
    omega

/-- Witness for C4: two tasks (one successful call, one raising call)
at the initial state with two permits — the hypotheses hold and the
in-flight bound follows from the theorem. -/
theorem gate_scoped_release_and_bound_witness :
    (∀ tr ∈ [(callStabilityTrace (.ok { artifacts := none, result := none })).1,
             (callStabilityTrace (.error "boom")).1],
      ∃ o, tr = (callStabilityTrace o).1) ∧
    inFlight (initGate 2
        [(callStabilityTrace (.ok { artifacts := none, result := none })).1,
         (callStabilityTrace (.error "boom")).1]) ≤ 2 := by
  have hyp : ∀ tr ∈ [(callStabilityTrace (.ok ({ artifacts := none, result := none } : RespData))).1,
      (callStabilityTrace (.error "boom")).1],
      ∃ o, tr = (callStabilityTrace o).1 := by
    intro tr htr
    rw [List.mem_cons, List.mem_singleton] at htr
    rcases htr with rfl | rfl
    · exact ⟨.ok { artifacts := none, result := none }, rfl⟩
    · exact ⟨.error "boom", rfl⟩
  exact ⟨hyp, gate_scoped_release_and_bound.2 2 _ _ hyp
    Relation.ReflTransGen.refl⟩

end DreamGen
